import Mathlib

/-!
# Verification of the lazorkit-keyless wallet dashboard logic

Shallow embedding of the transaction-classification and refresh pipeline of
`examples/react-native/src/screens/WalletScreen.tsx`, and of the send-flow
validators of `examples/react-native/src/screens/SendScreen.tsx`.

Conventions of the embedding:
* JS numbers on the lamport/SOL path are modelled as exact rationals (`ℚ`);
  lamport counts are integers (`ℤ`), so every arithmetic step of the source
  is exactly representable.
* Fallible async calls (`getTransaction`, `getBalance`,
  `getSignaturesForAddress`) are modelled as `Option`/`Except`-valued
  oracle parameters; a fetch that throws and one that resolves to `null`
  are both `none`, exactly as the source's `try { ... } catch { return null }`
  collapses them.
* React state updates are modelled as explicit state passing.
-/

set_option maxRecDepth 8000

namespace LazorkitKeyless

/-- `LAMPORTS_PER_SOL` conversion constant from `@solana/web3.js`,
used as `lamports / LAMPORTS_PER_SOL` throughout the source. -/
def LAMPORTS_PER_SOL : ℚ := 1000000000

/-- Rounding step of JS `Number.prototype.toFixed(4)` on a non-negative
rational `x`: the integer closest to `x * 10^4`, ties resolved upward
(ECMA-262 picks the larger candidate). For `x = a/b` in lowest terms this is
`⌊(2·10^4·a + b) / (2b)⌋`, computed by `Nat` division. -/
def fixed4Round (x : ℚ) : Nat :=
  (20000 * x.num.toNat + x.den) / (2 * x.den)

/-- Left-pads the decimal digits of `m` with zeros to width 4 (the
fractional part of a `toFixed(4)` rendering). -/
def pad4 (m : Nat) : String :=
  let s := toString m
  String.mk (List.replicate (4 - s.length) '0') ++ s

/-- JS `x.toFixed(4)` for a non-negative rational magnitude. -/
def toFixed4mag (x : ℚ) : String :=
  let n := fixed4Round x
  toString (n / 10000) ++ "." ++ pad4 (n % 10000)

/-- JS `x.toFixed(4)`: ECMA-262 renders the sign, then the rounded
magnitude to exactly four decimal places. -/
def toFixed4 (x : ℚ) : String :=
  if x < 0 then ("-") ++ toFixed4mag (-x) else toFixed4mag x

/-- A signature record returned by `getSignaturesForAddress`:
`{ signature, blockTime (nullable), confirmationStatus (nullable) }`. -/
structure SigRecord where
  signature : String
  blockTime : Option Int
  confirmationStatus : Option String
deriving DecidableEq

/-- The slice of a fetched transaction that the classifier reads:
`tx.transaction.message.staticAccountKeys` (as canonical strings) and
`tx.meta.preBalances` / `tx.meta.postBalances` (lamport integers). -/
structure TxDetail where
  accountKeys : List String
  preBalances : List Int
  postBalances : List Int
deriving DecidableEq

/-- The record the classifier produces for display
(`{ signature, type, amount, time, status, title }` in the source;
`type` is a reserved word in Lean, hence `txType`). -/
structure ClassifiedTx where
  signature : String
  txType : String
  amount : String
  time : String
  status : String
  title : String
deriving DecidableEq

/-- JS `sig.blockTime! * 1000`: the source multiplies the nullable block
time by 1000 without a null guard, and JS coerces `null` to `0` under `*`,
so an absent block time yields the fixed epoch instant `0`. -/
def blockTimeMillis : Option Int → Int
  | some t => t * 1000
  | none => 0

/-- JS `v || d` for a nullable string `v`: `null`, `undefined` and the
empty string are falsy, everything else passes through. -/
def jsOrDefault : Option String → String → String
  | some s, d => if s = "" then d else s
  | none, d => d

/-- The wallet-account balance delta of the source:
`(postBalance - preBalance) / LAMPORTS_PER_SOL` where
`preBalance = tx.meta?.preBalances?.[i] || 0` and likewise for post
(`|| 0` on a lamport integer is `List.getD _ i 0`). -/
def walletDelta (tx : TxDetail) (i : Nat) : ℚ :=
  ((tx.postBalances.getD i 0 - tx.preBalances.getD i 0 : Int) : ℚ) / LAMPORTS_PER_SOL

/-- The `type` / `title` / `amount` branch of `fetchTransactions`
(WalletScreen.tsx lines 366-385), verbatim: the dead-zone test
`Math.abs(balanceChange) < 0.000001` classifies as `sign`, then the sign
of the delta picks `receive` / `send`; the initial `'other'` defaults are
kept as the (unreachable) final branch. -/
def categorize (balanceChange : ℚ) : String × String × String :=
  if |balanceChange| < 0.000001 then
    ("sign", "Message Signed", "No transfer")
  else if 0 < balanceChange then
    ("receive", "Received SOL", "+" ++ toFixed4 balanceChange ++ " SOL")
  else if balanceChange < 0 then
    ("send", "Sent SOL", toFixed4 balanceChange ++ " SOL")
  else
    ("other", "Transaction", "0 SOL")

/-- The per-signature classification body of `fetchTransactions`
(WalletScreen.tsx lines 355-394): locate the wallet in
`staticAccountKeys` via `findIndex` (the `-1` sentinel becomes `none`),
compute the balance delta, categorize it, and assemble the display record.
`fmtDate` abstracts `(d : Date) => d.toLocaleDateString()`, which is
locale-dependent and therefore a parameter of the embedding. -/
def classifyTx (fmtDate : Int → String) (walletAddress : String)
    (sig : SigRecord) (tx : TxDetail) : Option ClassifiedTx :=
  match tx.accountKeys.findIdx? (fun key => key == walletAddress) with
  | none => none
  | some accountIndex =>
    let cat := categorize (walletDelta tx accountIndex)
    some
      { signature := sig.signature
        txType := cat.1
        amount := cat.2.2
        time := fmtDate (blockTimeMillis sig.blockTime)
        status := jsOrDefault sig.confirmationStatus ("confirmed")
        title := cat.2.1 }

/-- One element of the `signatures.map (async sig => ...)` fan-out:
`getTransaction` throwing or resolving to `null` both produce `null`
(here `none`), otherwise the detail is classified. -/
def taskResult (fmtDate : Int → String) (walletAddress : String)
    (fetch : String → Option TxDetail) (sig : SigRecord) : Option ClassifiedTx :=
  match fetch sig.signature with
  | none => none
  | some tx => classifyTx fmtDate walletAddress sig tx

/-- The assembled history of one successful `fetchTransactions` run:
`Promise.all` keeps the signature order, then
`validTransactions = transactionDetails.filter(tx => tx !== null)`. -/
def fetchTransactionsModel (fmtDate : Int → String) (walletAddress : String)
    (sigs : List SigRecord) (fetch : String → Option TxDetail) : List ClassifiedTx :=
  (sigs.map (taskResult fmtDate walletAddress fetch)).filterMap id

/-- `Promise.all` fan-in: every per-signature task settles at some point
of the `order` list, and its value is written into the slot of its
*original* index, never appended in settlement order. `none` is a slot
whose task has not settled yet. -/
def fanIn {α : Type} (f : Nat → α) (order : List Nat)
    (slots : List (Option α)) : List (Option α) :=
  order.foldl (fun acc j => acc.set j (some (f j))) slots

/-- The history branch with the concurrency made explicit: the detail
fetches of `sigs` settle in the arbitrary order `order` (a permutation of
the task indices), `fanIn` re-assembles them by original index, and the
`filter(tx => tx !== null)` step drops the failures. -/
def fetchTransactionsConcurrent (fmtDate : Int → String) (walletAddress : String)
    (sigs : List SigRecord) (fetch : String → Option TxDetail)
    (order : List Nat) : List ClassifiedTx :=
  let task : Nat → Option ClassifiedTx := fun i =>
    match sigs[i]? with
    | some sig => taskResult fmtDate walletAddress fetch sig
    | none => none
  ((fanIn task order (List.replicate sigs.length none)).filterMap id).filterMap id

/-- JS `String.prototype.trim()`: strips whitespace from both ends
(executable char-list form of the source's `walletAddress.trim()`). -/
def jsTrim (s : String) : String :=
  String.mk (((s.toList.dropWhile Char.isWhitespace).reverse.dropWhile
    Char.isWhitespace).reverse)

/-- Observable outcome of one `fetchBalance` run: the balance that was
set, the user-facing alerts raised (the source raises none: errors only
reach `console.error`), and how many RPC `getBalance` calls were made. -/
structure BalanceOutcome where
  balance : ℚ
  alerts : List String
  rpcCalls : Nat
deriving DecidableEq

/-- `fetchBalance` (WalletScreen.tsx lines 257-282): an empty/blank
address is a no-op; an address of length outside 32-44 throws, and the
`catch` sets the balance to `0`; otherwise the RPC result is converted
with `lamports / LAMPORTS_PER_SOL`, and any RPC rejection is caught and
sets the balance to `0`. `rpc` is the `getBalance` oracle. -/
def fetchBalance (walletAddress : String) (rpc : Except String Int)
    (prev : ℚ) : BalanceOutcome :=
  if jsTrim walletAddress = "" then ⟨prev, [], 0⟩
  else if walletAddress.length < 32 ∨ 44 < walletAddress.length then ⟨0, [], 0⟩
  else
    match rpc with
    | .ok lamports => ⟨(lamports : ℚ) / LAMPORTS_PER_SOL, [], 1⟩
    | .error _ => ⟨0, [], 1⟩

/-- Observable outcome of one `fetchTransactions` run: the transaction
list that was set and the user-facing alerts raised (none: the `catch`
only logs and sets `[]`). -/
structure HistoryOutcome where
  transactions : List ClassifiedTx
  alerts : List String
deriving DecidableEq

/-- Top level of `fetchTransactions` (WalletScreen.tsx lines 332-411):
a falsy wallet address returns without touching state; a rejection of
`getSignaturesForAddress` (`sigsResult = .error`) is caught and sets the
list to `[]`; otherwise the fan-out/filter pipeline runs. -/
def fetchTransactionsRun (fmtDate : Int → String) (walletAddress : String)
    (prev : List ClassifiedTx) (sigsResult : Except String (List SigRecord))
    (fetch : String → Option TxDetail) : HistoryOutcome :=
  if walletAddress = "" then ⟨prev, []⟩
  else
    match sigsResult with
    | .error _ => ⟨[], []⟩
    | .ok sigs => ⟨fetchTransactionsModel fmtDate walletAddress sigs fetch, []⟩

/-- The dashboard refresh state: the `refreshing` flag plus an
instrumentation counter of how many fetch cycles were started. -/
structure RefreshState where
  refreshing : Bool
  fetchCycles : Nat
deriving DecidableEq

/-- The synchronous head of `handleRefresh` (WalletScreen.tsx lines
288-305): no wallet address → ignore; already refreshing → ignore;
otherwise raise the flag and start one fetch cycle. Returns the new
state and whether a cycle was started. -/
def handleRefreshTrigger (walletAddress : String) (s : RefreshState) :
    RefreshState × Bool :=
  if walletAddress = "" then (s, false)
  else if s.refreshing then (s, false)
  else ({ refreshing := true, fetchCycles := s.fetchCycles + 1 }, true)

/-- The tail of `handleRefresh` (lines 306-326): `Promise.allSettled`
never rejects, so whatever each branch did (`balanceFailed`,
`historyFailed` record the settled statuses) the `finally` block clears
the flag. -/
def handleRefreshSettle (_balanceFailed _historyFailed : Bool)
    (s : RefreshState) : RefreshState :=
  { s with refreshing := false }

/-- Optional sign of a JS numeric literal: `-` negates, `+` is skipped. -/
def parseSign : List Char → Bool × List Char
  | '-' :: rest => (true, rest)
  | '+' :: rest => (false, rest)
  | cs => (false, cs)

/-- Consumes a maximal run of decimal digits, returning its value
(JS-style `10*acc + digit` accumulation), its length, and the rest. -/
def parseDigits : List Char → Nat → Nat → Nat × Nat × List Char
  | c :: cs, acc, k =>
    if c.isDigit then parseDigits cs (10 * acc + (c.toNat - 48)) (k + 1)
    else (acc, k, c :: cs)
  | [], acc, k => (acc, k, [])

/-- Exponent part of a JS numeric literal: `e`/`E`, optional sign, digits;
it contributes only when at least one digit follows, as in `parseFloat`. -/
def parseExponent (cs : List Char) : Int :=
  match cs with
  | c :: rest =>
    if c = 'e' ∨ c = 'E' then
      let (neg, r1) := parseSign rest
      let (v, k, _) := parseDigits r1 0 0
      if k = 0 then 0
      else if neg then -(v : Int) else (v : Int)
    else 0
  | [] => 0

/-- JS `parseFloat` restricted to decimal literals: leading whitespace is
skipped, then the longest prefix of the form
`[sign] digits [. digits] [e [sign] digits]` is evaluated exactly as the
rational `±(int·10^fracLen + frac) / 10^fracLen · 10^e`; `none` is JS
`NaN` (no digits at all). The `Infinity` literal, which this grammar
omits, is irrelevant here: both it and `NaN` fail `handleSend`'s
validation. -/
def parseFloatModel (s : String) : Option ℚ :=
  let cs := s.toList.dropWhile (fun c => c = ' ' ∨ c = '\t' ∨ c = '\n' ∨ c = '\r')
  let (neg, cs1) := parseSign cs
  let (intVal, intLen, rest1) := parseDigits cs1 0 0
  let (fracVal, fracLen, rest2) :=
    match rest1 with
    | '.' :: r => parseDigits r 0 0
    | _ => (0, 0, rest1)
  if intLen = 0 ∧ fracLen = 0 then none
  else
    let e := parseExponent rest2
    let mag : Int := intVal * 10 ^ fracLen + fracVal
    let num : Int := if neg then -mag else mag
    some (if 0 ≤ e then mkRat (num * 10 ^ e.toNat) (10 ^ fracLen)
          else mkRat num (10 ^ fracLen * 10 ^ (-e).toNat))

/-- Result of the amount checks of `handleSend`. -/
inductive AmountCheck where
  | invalid (msg : String)
  | insufficient (msg : String)
  | ok (v : ℚ)
deriving DecidableEq

/-- The amount-validation segment of `handleSend` (SendScreen.tsx lines
126-138), applied to the already-trimmed amount: `parseFloat`, reject
`NaN` or a non-positive value, then reject an amount above the displayed
balance with a message quoting `balance.toFixed(4)`. All of this runs
before any network call. -/
def validateAmount (trimmedAmount : String) (balance : ℚ) : AmountCheck :=
  match parseFloatModel trimmedAmount with
  | none => .invalid ("Invalid amount. Please enter a valid number.")
  | some sendAmount =>
    if sendAmount ≤ 0 then .invalid ("Invalid amount. Please enter a valid number.")
    else if balance < sendAmount then
      .insufficient ("Insufficient balance. Available: " ++ toFixed4 balance ++ " SOL")
    else .ok sendAmount

/-- JS `String.prototype.split('.')`: `k` dots give `k + 1` pieces. -/
def splitDot : List Char → List (List Char)
  | [] => [[]]
  | c :: cs =>
    if c = '.' then [] :: splitDot cs
    else
      match splitDot cs with
      | p :: ps => (c :: p) :: ps
      | [] => [[c]]

/-- `handleAmountChange` (SendScreen.tsx lines 207-216): strip every
character outside `[0-9.]`, and if the stripped text still has two or
more dots (`split('.')` yields more than two parts) keep the previous
amount unchanged, else store the stripped text. -/
def handleAmountChange (amount text : String) : String :=
  let cleanText := String.mk (text.toList.filter (fun c => c.isDigit || c == '.'))
  let parts := splitDot cleanText.toList
  if parts.length > 2 then amount else cleanText

/-- The well-formedness the amount field maintains: only decimal digits
and at most one dot. -/
@[reducible] def amountWF (s : String) : Prop :=
  (∀ c ∈ s.toList, c.isDigit = true ∨ c = '.') ∧ s.toList.count '.' ≤ 1

/-- `handleMax` (SendScreen.tsx lines 222-226):
`Math.max(0, balance - 0.005).toFixed(4)`. -/
def handleMax (balance : ℚ) : String :=
  toFixed4 (max 0 (balance - 0.005))

example : toFixed4 (1/2) = "0.5000" := by with_unfolding_all decide
example : toFixed4 (-1/4) = "-0.2500" := by with_unfolding_all decide
example : toFixed4 0 = "0.0000" := by with_unfolding_all decide
example : toFixed4 (3/2) = "1.5000" := by with_unfolding_all decide

example :
    classifyTx (fun _ => "d") ("W") ⟨"S", some 5, none⟩ ⟨["W"], [0], [500000000]⟩ =
      some ⟨"S", "receive", "+0.5000 SOL", "d", "confirmed", "Received SOL"⟩ := by
  with_unfolding_all decide

example :
    classifyTx (fun _ => "d") ("W") ⟨"S", none, some ("finalized")⟩ ⟨["X", "W"], [0, 100], [7, 150]⟩ =
      some ⟨"S", "sign", "No transfer", "d", "finalized", "Message Signed"⟩ := by
  with_unfolding_all decide

example : classifyTx (fun _ => "d") ("W") ⟨"S", none, none⟩ ⟨["X"], [0], [7]⟩ = none := by
  with_unfolding_all decide

example : parseFloatModel ("0") = some 0 := by with_unfolding_all decide
example : parseFloatModel ("-1") = some (-1) := by with_unfolding_all decide
example : parseFloatModel ("0.0001") = some (mkRat 1 10000) := by
  simp +decide [parseFloatModel, parseDigits, parseSign, parseExponent,
    show ("0.0001").toList = ['0', '.', '0', '0', '0', '1'] from rfl]
example : parseFloatModel ("abc") = none := by with_unfolding_all decide
example : parseFloatModel (".") = none := by with_unfolding_all decide
example : parseFloatModel ("2.5e1") = some 25 := by with_unfolding_all decide
example : parseFloatModel ("15e-1") = some (mkRat 3 2) := by with_unfolding_all decide
example : parseFloatModel ("1.5abc") = some (mkRat 3 2) := by with_unfolding_all decide

example : validateAmount ("0.0001") 1 = .ok (mkRat 1 10000) := by
  simp +decide [validateAmount, parseFloatModel, parseDigits, parseSign, parseExponent,
    show ("0.0001").toList = ['0', '.', '0', '0', '0', '1'] from rfl]
example :
    validateAmount ("2") 1 = .insufficient ("Insufficient balance. Available: 1.0000 SOL") := by
  with_unfolding_all decide

example : handleAmountChange ("1.5") ("ab2..3x") = "1.5" := by with_unfolding_all decide
example : handleAmountChange ("1.5") ("12.xy7") = "12.7" := by with_unfolding_all decide

example : handleMax (1/100) = "0.0050" := by with_unfolding_all decide
example : handleMax (1/1000) = "0.0000" := by with_unfolding_all decide

example :
    fetchTransactionsConcurrent (fun _ => "d") ("W")
      [⟨"S1", none, none⟩, ⟨"S2", none, none⟩, ⟨"S3", none, none⟩]
      (fun s => if s = "S2" then none else some ⟨["W"], [0], [500000000]⟩)
      [2, 0, 1] =
    [⟨"S1", "receive", "+0.5000 SOL", "d", "confirmed", "Received SOL"⟩,
     ⟨"S3", "receive", "+0.5000 SOL", "d", "confirmed", "Received SOL"⟩] := by
  with_unfolding_all decide

/-- C1: a transaction detail whose wallet-account balance delta satisfies
`|postBalance − preBalance| / 1e9 < 0.000001` is classified as kind
`sign` with title `Message Signed` and amount `No transfer`, and never as
`send` or `receive`. -/
theorem claim_C1 (fmtDate : Int → String) (wallet : String) (sig : SigRecord)
    (tx : TxDetail) (i : Nat)
    (hfind : tx.accountKeys.findIdx? (fun key => key == wallet) = some i)
    (hdz : |walletDelta tx i| < 0.000001) :
    ∃ c, classifyTx fmtDate wallet sig tx = some c ∧
      c.txType = "sign" ∧ c.title = "Message Signed" ∧ c.amount = "No transfer" ∧
      c.txType ≠ "send" ∧ c.txType ≠ "receive" := by
  have hc : categorize (walletDelta tx i) = ("sign", "Message Signed", "No transfer") := by
    unfold categorize
    rw [if_pos hdz]
  refine ⟨{ signature := sig.signature
            txType := "sign"
            amount := "No transfer"
            time := fmtDate (blockTimeMillis sig.blockTime)
            status := jsOrDefault sig.confirmationStatus ("confirmed")
            title := "Message Signed" }, ?_, rfl, rfl, rfl, by simp, by simp⟩
  unfold classifyTx
  rw [hfind]
  simp only [hc]

/-- C1 witness: a 50-lamport delta (|delta| = 5e-8 < 1e-6) on a detail
containing the wallet is classified as a `sign`. -/
theorem claim_C1_witness :
    ∃ c, classifyTx (fun _ => "d") ("W") ⟨"S", some 1, none⟩ ⟨["W"], [100], [150]⟩ = some c ∧
      c.txType = "sign" ∧ c.title = "Message Signed" ∧ c.amount = "No transfer" ∧
      c.txType ≠ "send" ∧ c.txType ≠ "receive" :=
  claim_C1 (fun _ => "d") ("W") ⟨"S", some 1, none⟩ ⟨["W"], [100], [150]⟩ 0
    (by with_unfolding_all decide) (by with_unfolding_all decide)

/-- C2: outside the dead-zone, a positive delta is classified as
`receive` with amount `+{delta.toFixed(4)} SOL` and a negative delta as
`send` with amount `{delta.toFixed(4)} SOL`, the `-` sign coming from
`toFixed` itself. -/
theorem claim_C2 (fmtDate : Int → String) (wallet : String) (sig : SigRecord)
    (tx : TxDetail) (i : Nat)
    (hfind : tx.accountKeys.findIdx? (fun key => key == wallet) = some i) :
    (¬ |walletDelta tx i| < 0.000001 → 0 < walletDelta tx i →
      ∃ c, classifyTx fmtDate wallet sig tx = some c ∧
        c.txType = "receive" ∧ c.title = "Received SOL" ∧
        c.amount = "+" ++ toFixed4 (walletDelta tx i) ++ " SOL") ∧
    (¬ |walletDelta tx i| < 0.000001 → walletDelta tx i < 0 →
      ∃ c, classifyTx fmtDate wallet sig tx = some c ∧
        c.txType = "send" ∧ c.title = "Sent SOL" ∧
        c.amount = toFixed4 (walletDelta tx i) ++ " SOL") := by
  constructor
  · intro hdz hpos
    have hc : categorize (walletDelta tx i) =
        ("receive", "Received SOL", "+" ++ toFixed4 (walletDelta tx i) ++ " SOL") := by
      unfold categorize
      rw [if_neg hdz, if_pos hpos]
    refine ⟨{ signature := sig.signature
              txType := "receive"
              amount := "+" ++ toFixed4 (walletDelta tx i) ++ " SOL"
              time := fmtDate (blockTimeMillis sig.blockTime)
              status := jsOrDefault sig.confirmationStatus ("confirmed")
              title := "Received SOL" }, ?_, rfl, rfl, rfl⟩
    unfold classifyTx
    rw [hfind]
    simp only [hc]
  · intro hdz hneg
    have hc : categorize (walletDelta tx i) =
        ("send", "Sent SOL", toFixed4 (walletDelta tx i) ++ " SOL") := by
      unfold categorize
      rw [if_neg hdz, if_neg (by exact fun h => absurd (lt_trans hneg h) (lt_irrefl _)),
        if_pos hneg]
    refine ⟨{ signature := sig.signature
              txType := "send"
              amount := toFixed4 (walletDelta tx i) ++ " SOL"
              time := fmtDate (blockTimeMillis sig.blockTime)
              status := jsOrDefault sig.confirmationStatus ("confirmed")
              title := "Sent SOL" }, ?_, rfl, rfl, rfl⟩
    unfold classifyTx
    rw [hfind]
    simp only [hc]

/-- C2 witness: delta `+0.5` SOL (post − pre = 500000000 lamports) renders
as `+0.5000 SOL` under kind `receive`, and delta `−0.25` SOL renders as
`-0.2500 SOL` under kind `send`. -/
theorem claim_C2_witness :
    (∃ c, classifyTx (fun _ => "d") ("W") ⟨"S1", none, none⟩ ⟨["W"], [0], [500000000]⟩ = some c ∧
      c.txType = "receive" ∧ c.title = "Received SOL" ∧
      c.amount = "+" ++ toFixed4 (walletDelta ⟨["W"], [0], [500000000]⟩ 0) ++ " SOL") ∧
    ("+" ++ toFixed4 (walletDelta ⟨["W"], [0], [500000000]⟩ 0) ++ " SOL" = "+0.5000 SOL") ∧
    (∃ c, classifyTx (fun _ => "d") ("W") ⟨"S2", none, none⟩ ⟨["W"], [250000000], [0]⟩ = some c ∧
      c.txType = "send" ∧ c.title = "Sent SOL" ∧
      c.amount = toFixed4 (walletDelta ⟨["W"], [250000000], [0]⟩ 0) ++ " SOL") ∧
    (toFixed4 (walletDelta ⟨["W"], [250000000], [0]⟩ 0) ++ " SOL" = "-0.2500 SOL") :=
  ⟨(claim_C2 (fun _ => "d") ("W") ⟨"S1", none, none⟩ ⟨["W"], [0], [500000000]⟩ 0
      (by with_unfolding_all decide)).1
    (by with_unfolding_all decide) (by with_unfolding_all decide),
   by with_unfolding_all decide,
   (claim_C2 (fun _ => "d") ("W") ⟨"S2", none, none⟩ ⟨["W"], [250000000], [0]⟩ 0
      (by with_unfolding_all decide)).2
    (by with_unfolding_all decide) (by with_unfolding_all decide),
   by with_unfolding_all decide⟩

/-- C8: every classified transaction's `time` field is the rendered date
of `blockTime * 1000`, with the fixed epoch fallback `fmtDate 0` when the
block time is absent (JS `null * 1000 = 0`), and its `status` defaults to
`confirmed` when the confirmation status is absent. -/
theorem claim_C8 (fmtDate : Int → String) (wallet : String) (sig : SigRecord)
    (tx : TxDetail) (c : ClassifiedTx)
    (h : classifyTx fmtDate wallet sig tx = some c) :
    (∀ t, sig.blockTime = some t → c.time = fmtDate (t * 1000)) ∧
    (sig.blockTime = none → c.time = fmtDate 0) ∧
    (sig.confirmationStatus = none → c.status = "confirmed") := by
  rcases hfind : tx.accountKeys.findIdx? (fun key => key == wallet) with _ | i
  · unfold classifyTx at h
    rw [hfind] at h
    exact absurd h (by simp)
  · unfold classifyTx at h
    rw [hfind] at h
    simp only [Option.some.injEq] at h
    subst h
    refine ⟨?_, ?_, ?_⟩
    · intro t ht
      simp [blockTimeMillis, ht]
    · intro ht
      simp [blockTimeMillis, ht]
    · intro hs
      simp [jsOrDefault, hs]

/-- C8 witness: with no block time and no confirmation status, the
classifier renders `fmtDate 0` and status `confirmed`. -/
theorem claim_C8_witness :
    (∀ t, (none : Option Int) = some t →
      (ClassifiedTx.time ⟨"S", "sign", "No transfer", "0", "confirmed", "Message Signed"⟩) =
        (fun n : Int => toString n) (t * 1000)) ∧
    ((none : Option Int) = none →
      (ClassifiedTx.time ⟨"S", "sign", "No transfer", "0", "confirmed", "Message Signed"⟩) =
        (fun n : Int => toString n) 0) ∧
    ((none : Option String) = none →
      (ClassifiedTx.status ⟨"S", "sign", "No transfer", "0", "confirmed", "Message Signed"⟩) =
        "confirmed") :=
  claim_C8 (fun n => toString n) ("W") ⟨"S", none, none⟩ ⟨["W"], [100], [150]⟩
    ⟨"S", "sign", "No transfer", "0", "confirmed", "Message Signed"⟩
    (by with_unfolding_all decide)

/-- C5: triggering a refresh while one is in flight starts no second
fetch cycle — the second trigger leaves the state untouched and reports
that nothing started, so the `refreshing` flag goes false→true exactly
once across the two triggers and exactly one fetch cycle is counted —
and the settle step clears the flag whatever each branch's outcome was. -/
theorem claim_C5 (addr : String) (s : RefreshState) (ha : addr ≠ "")
    (hr : s.refreshing = false) :
    (handleRefreshTrigger addr s).2 = true ∧
    (handleRefreshTrigger addr (handleRefreshTrigger addr s).1).2 = false ∧
    (handleRefreshTrigger addr (handleRefreshTrigger addr s).1).1 =
      (handleRefreshTrigger addr s).1 ∧
    (handleRefreshTrigger addr s).1.refreshing = true ∧
    (handleRefreshTrigger addr s).1.fetchCycles = s.fetchCycles + 1 ∧
    ∀ bFail hFail : Bool, (handleRefreshSettle bFail hFail
        (handleRefreshTrigger addr (handleRefreshTrigger addr s).1).1).refreshing = false := by
  have h1 : handleRefreshTrigger addr s =
      ({ refreshing := true, fetchCycles := s.fetchCycles + 1 }, true) := by
    unfold handleRefreshTrigger
    rw [if_neg ha, hr]
    simp
  have h2 : handleRefreshTrigger addr
      ({ refreshing := true, fetchCycles := s.fetchCycles + 1 } : RefreshState) =
      ({ refreshing := true, fetchCycles := s.fetchCycles + 1 }, false) := by
    unfold handleRefreshTrigger
    rw [if_neg ha]
    simp
  rw [h1]
  simp only [h2]
  simp [handleRefreshSettle]

/-- C5 witness: from an idle state, two consecutive triggers start one
cycle, the flag stays raised across the ignored second trigger, and the
settle step clears it for every combination of branch outcomes. -/
theorem claim_C5_witness :
    (handleRefreshTrigger ("W") ⟨false, 0⟩).2 = true ∧
    (handleRefreshTrigger ("W") (handleRefreshTrigger ("W") ⟨false, 0⟩).1).2 = false ∧
    (handleRefreshTrigger ("W") (handleRefreshTrigger ("W") ⟨false, 0⟩).1).1 =
      (handleRefreshTrigger ("W") ⟨false, 0⟩).1 ∧
    (handleRefreshTrigger ("W") ⟨false, 0⟩).1.refreshing = true ∧
    (handleRefreshTrigger ("W") ⟨false, 0⟩).1.fetchCycles = (0 : Nat) + 1 ∧
    ∀ bFail hFail : Bool, (handleRefreshSettle bFail hFail
        (handleRefreshTrigger ("W") (handleRefreshTrigger ("W") ⟨false, 0⟩).1).1).refreshing =
      false :=
  claim_C5 ("W") ⟨false, 0⟩ (by simp) rfl

/-- C6: a balance-fetch error — malformed address (length outside 32-44)
or RPC rejection — sets the balance to zero; a top-level history-fetch
error sets the transaction list to empty; neither path raises any
user-facing alert, and the balance fetch performs at most one RPC call
(no retry). -/
theorem claim_C6 :
    (∀ (addr : String) (rpc : Except String Int) (prev : ℚ),
      (fetchBalance addr rpc prev).alerts = [] ∧
      (fetchBalance addr rpc prev).rpcCalls ≤ 1) ∧
    (∀ (addr : String) (rpc : Except String Int) (prev : ℚ),
      jsTrim addr ≠ "" → (addr.length < 32 ∨ 44 < addr.length) →
      (fetchBalance addr rpc prev).balance = 0) ∧
    (∀ (addr e : String) (prev : ℚ),
      jsTrim addr ≠ "" → (fetchBalance addr (.error e) prev).balance = 0) ∧
    (∀ (fmtDate : Int → String) (wallet e : String) (prev : List ClassifiedTx)
        (fetch : String → Option TxDetail),
      wallet ≠ "" → fetchTransactionsRun fmtDate wallet prev (.error e) fetch = ⟨[], []⟩) ∧
    (∀ (fmtDate : Int → String) (wallet : String) (prev : List ClassifiedTx)
        (sigsResult : Except String (List SigRecord)) (fetch : String → Option TxDetail),
      (fetchTransactionsRun fmtDate wallet prev sigsResult fetch).alerts = []) := by
  refine ⟨?_, ?_, ?_, ?_, ?_⟩
  · intro addr rpc prev
    unfold fetchBalance
    split
    · exact ⟨rfl, by simp⟩
    · split
      · exact ⟨rfl, by simp⟩
      · rcases rpc with _ | _ <;> exact ⟨rfl, by simp⟩
  · intro addr rpc prev htrim hlen
    unfold fetchBalance
    rw [if_neg htrim, if_pos hlen]
  · intro addr e prev htrim
    unfold fetchBalance
    rw [if_neg htrim]
    split
    · rfl
    · rfl
  · intro fmtDate wallet e prev fetch hw
    unfold fetchTransactionsRun
    rw [if_neg hw]
  · intro fmtDate wallet prev sigsResult fetch
    unfold fetchTransactionsRun
    split
    · rfl
    · rcases sigsResult with _ | _ <;> rfl

/-- C6 witness: a 13-character address with an RPC error reports balance
zero, a valid-length address with an RPC error reports balance zero, and
a failing signature fetch yields the empty list, all without alerts. -/
theorem claim_C6_witness :
    (fetchBalance ("short-address") (.error ("rpc down")) 7).balance = 0 ∧
    (fetchBalance ("AAAAAAAAAAAAAAAAAAAAAAAAAAAAAAAA") (.error ("timeout")) 7).balance = 0 ∧
    fetchTransactionsRun (fun _ => "d") ("W") [] (.error ("rpc down"))
      (fun _ => none) = ⟨[], []⟩ ∧
    (fetchBalance ("short-address") (.error ("rpc down")) 7).alerts = [] ∧
    (fetchBalance ("short-address") (.error ("rpc down")) 7).rpcCalls ≤ 1 :=
  ⟨claim_C6.2.1 ("short-address") (.error ("rpc down")) 7 (by decide) (by decide),
   claim_C6.2.2.1 ("AAAAAAAAAAAAAAAAAAAAAAAAAAAAAAAA") ("timeout") 7 (by decide),
   claim_C6.2.2.2.1 (fun _ => "d") ("W") ("rpc down") [] (fun _ => none) (by decide),
   (claim_C6.1 ("short-address") (.error ("rpc down")) 7).1,
   (claim_C6.1 ("short-address") (.error ("rpc down")) 7).2⟩

/-- C10: the MAX button stores `max(0, balance − 0.005)` rendered to four
decimal places; the stored value is the rendering of a non-negative
quantity, and any balance at most `0.005` renders as `0.0000`. -/
theorem claim_C10 (balance : ℚ) :
    handleMax balance = toFixed4 (max 0 (balance - 0.005)) ∧
    0 ≤ max (0 : ℚ) (balance - 0.005) ∧
    (balance ≤ 0.005 → handleMax balance = "0.0000") := by
  refine ⟨rfl, le_max_left _ _, ?_⟩
  intro hb
  have hz : max (0 : ℚ) (balance - 0.005) = 0 := by
    rw [max_eq_left (by linarith)]
  unfold handleMax
  rw [hz]
  with_unfolding_all decide

/-- C10 witness: a balance of `0.003` (≤ 0.005) yields the amount string
`0.0000`. -/
theorem claim_C10_witness : handleMax 0.003 = "0.0000" :=
  (claim_C10 0.003).2.2 (by norm_num)

/-- C7: the amount gate of `handleSend` — an amount that does not parse
(`NaN`) or parses non-positive is rejected as invalid; a positive amount
above the displayed balance is rejected with a message quoting
`balance.toFixed(4)`; a positive amount within the balance passes. All
three outcomes are produced by the pure validator, before any network
call. -/
theorem claim_C7 (s : String) (b : ℚ) :
    (parseFloatModel s = none →
      validateAmount s b = .invalid ("Invalid amount. Please enter a valid number.")) ∧
    (∀ v, parseFloatModel s = some v → v ≤ 0 →
      validateAmount s b = .invalid ("Invalid amount. Please enter a valid number.")) ∧
    (∀ v, parseFloatModel s = some v → 0 < v → b < v →
      validateAmount s b =
        .insufficient ("Insufficient balance. Available: " ++ toFixed4 b ++ " SOL")) ∧
    (∀ v, parseFloatModel s = some v → 0 < v → v ≤ b →
      validateAmount s b = .ok v) := by
  refine ⟨?_, ?_, ?_, ?_⟩
  · intro h
    unfold validateAmount
    rw [h]
  · intro v h hv
    unfold validateAmount
    rw [h]
    simp only [if_pos hv]
  · intro v h hv0 hvb
    simp only [validateAmount, h]
    rw [if_neg (not_le.2 hv0), if_pos hvb]
  · intro v h hv0 hvb
    simp only [validateAmount, h]
    rw [if_neg (not_le.2 hv0), if_neg (not_lt.2 hvb)]

/-- C7 witness: against a balance of 1 SOL, the amount `0` is rejected as
invalid, `-1` is rejected as invalid, `2` is rejected quoting
`1.0000` (= `toFixed4 1`), and `0.0001` passes as `1/10000`. -/
theorem claim_C7_witness :
    validateAmount ("0") 1 = .invalid ("Invalid amount. Please enter a valid number.") ∧
    validateAmount ("-1") 1 = .invalid ("Invalid amount. Please enter a valid number.") ∧
    validateAmount ("2") 1 =
      .insufficient ("Insufficient balance. Available: " ++ toFixed4 1 ++ " SOL") ∧
    ("Insufficient balance. Available: " ++ toFixed4 1 ++ " SOL" =
      "Insufficient balance. Available: 1.0000 SOL") ∧
    validateAmount ("0.0001") 1 = .ok (mkRat 1 10000) :=
  ⟨(claim_C7 ("0") 1).2.1 0 (by with_unfolding_all decide) le_rfl,
   (claim_C7 ("-1") 1).2.1 (-1) (by with_unfolding_all decide)
     (by with_unfolding_all decide),
   (claim_C7 ("2") 1).2.2.1 2 (by with_unfolding_all decide)
     (by with_unfolding_all decide) (by with_unfolding_all decide),
   by with_unfolding_all decide,
   (claim_C7 ("0.0001") 1).2.2.2 (mkRat 1 10000)
     (by simp +decide [parseFloatModel, parseDigits, parseSign, parseExponent,
       show ("0.0001").toList = ['0', '.', '0', '0', '0', '1'] from rfl])
     (by with_unfolding_all decide) (by with_unfolding_all decide)⟩

/-- JS `split('.')` yields one more piece than there are dots. -/
theorem splitDot_length (l : List Char) : (splitDot l).length = l.count '.' + 1 := by
  induction l with
  | nil => rfl
  | cons c cs ih =>
    by_cases hc : c = '.'
    · subst hc
      simp [splitDot, List.count_cons, ih]
    · rcases hsp : splitDot cs with _ | ⟨p, ps⟩
      · rw [hsp] at ih
        simp at ih
      · rw [hsp] at ih
        simp only [List.length_cons] at ih
        simp [splitDot, hc, hsp, List.count_cons, ih]

/-- C9: the amount-input handler's invariant — starting from a
well-formed stored amount (digits and at most one dot), the stored
amount stays well-formed after any input, and an input whose stripped
form has two or more dots leaves the stored amount unchanged. -/
theorem claim_C9 (amount text : String) (h : amountWF amount) :
    amountWF (handleAmountChange amount text) ∧
    (2 ≤ (text.toList.filter (fun c => c.isDigit || c == '.')).count '.' →
      handleAmountChange amount text = amount) := by
  have hlist : (String.mk (text.toList.filter (fun c => c.isDigit || c == '.'))).toList
      = text.toList.filter (fun c => c.isDigit || c == '.') := rfl
  by_cases hcnt : 2 ≤ (text.toList.filter (fun c => c.isDigit || c == '.')).count '.'
  · have hgt : (splitDot ((String.mk (text.toList.filter
        (fun c => c.isDigit || c == '.'))).toList)).length > 2 := by
      rw [hlist, splitDot_length]
      omega
    have heq : handleAmountChange amount text = amount := by
      unfold handleAmountChange
      rw [if_pos hgt]
    exact ⟨by rw [heq]; exact h, fun _ => heq⟩
  · have hle : ¬ (splitDot ((String.mk (text.toList.filter
        (fun c => c.isDigit || c == '.'))).toList)).length > 2 := by
      rw [hlist, splitDot_length]
      omega
    have heq : handleAmountChange amount text =
        String.mk (text.toList.filter (fun c => c.isDigit || c == '.')) := by
      unfold handleAmountChange
      rw [if_neg hle]
    refine ⟨?_, fun hc => absurd hc hcnt⟩
    rw [heq]
    constructor
    · intro c hc
      rw [hlist] at hc
      have hmem := (List.mem_filter.1 hc).2
      simp only [Bool.or_eq_true, beq_iff_eq] at hmem
      rcases hmem with h1 | h2
      · exact Or.inl h1
      · exact Or.inr h2
    · rw [hlist]
      omega

/-- C9 witness: from the stored amount `1.5`, the input `12.xy7` stores
the stripped well-formed `12.7`, while the input `ab2..3x` (stripped form
`2..3`, two dots) leaves `1.5` stored. -/
theorem claim_C9_witness :
    amountWF (handleAmountChange ("1.5") ("12.xy7")) ∧
    handleAmountChange ("1.5") ("ab2..3x") = "1.5" :=
  ⟨(claim_C9 ("1.5") ("12.xy7") (by with_unfolding_all decide)).1,
   (claim_C9 ("1.5") ("ab2..3x") (by with_unfolding_all decide)).2
     (by with_unfolding_all decide)⟩

/-- Dropping the `null` slots of an option list keeps exactly the
`isSome` entries. -/
theorem length_filterMap_id {α : Type} (l : List (Option α)) :
    (l.filterMap id).length = l.countP (fun o => o.isSome) := by
  induction l with
  | nil => rfl
  | cons o rest ih =>
    cases o <;> simp [List.filterMap_cons, List.countP_cons, ih]

/-- A wallet absent from the key list is never found by `findIndex`. -/
theorem findIdx?_beq_none {keys : List String} {w : String} (h : w ∉ keys) :
    keys.findIdx? (fun key => key == w) = none := by
  rw [List.findIdx?_eq_none_iff]
  intro x hx
  exact beq_eq_false_iff_ne.2 (fun hxw => h (hxw ▸ hx))

/-- C4: one classified transaction is produced per successful task
(detail fetched and wallet present), counted exactly; a detail whose
account list lacks the wallet classifies to nothing; and a failed fetch
in the middle of three signatures leaves exactly the two surrounding
classified records, with no placeholder. -/
theorem claim_C4 (fmtDate : Int → String) (wallet : String) :
    (∀ (sigs : List SigRecord) (fetch : String → Option TxDetail),
      (fetchTransactionsModel fmtDate wallet sigs fetch).length =
        (sigs.map (taskResult fmtDate wallet fetch)).countP (fun o => o.isSome)) ∧
    (∀ (sig : SigRecord) (tx : TxDetail), wallet ∉ tx.accountKeys →
      classifyTx fmtDate wallet sig tx = none) ∧
    (∀ (s1 s2 s3 : SigRecord) (fetch : String → Option TxDetail)
        (c1 c3 : ClassifiedTx),
      taskResult fmtDate wallet fetch s1 = some c1 →
      fetch s2.signature = none →
      taskResult fmtDate wallet fetch s3 = some c3 →
      fetchTransactionsModel fmtDate wallet [s1, s2, s3] fetch = [c1, c3]) := by
  refine ⟨?_, ?_, ?_⟩
  · intro sigs fetch
    exact length_filterMap_id _
  · intro sig tx hmem
    unfold classifyTx
    rw [findIdx?_beq_none hmem]
  · intro s1 s2 s3 fetch c1 c3 h1 h2 h3
    have h2' : taskResult fmtDate wallet fetch s2 = none := by
      unfold taskResult
      rw [h2]
    simp [fetchTransactionsModel, h1, h2', h3]

/-- C4 witness: with `S2`'s fetch failing and `S1`, `S3` succeeding, the
output is exactly the two classified records, and a detail without the
wallet in its key list yields nothing. -/
theorem claim_C4_witness :
    classifyTx (fun _ => "d") ("W") ⟨"S0", none, none⟩ ⟨["X", "Y"], [0], [7]⟩ = none ∧
    fetchTransactionsModel (fun _ => "d") ("W")
      [⟨"S1", none, none⟩, ⟨"S2", none, none⟩, ⟨"S3", none, none⟩]
      (fun s => if s = "S2" then none else some ⟨["W"], [0], [500000000]⟩) =
      [⟨"S1", "receive", "+0.5000 SOL", "d", "confirmed", "Received SOL"⟩,
       ⟨"S3", "receive", "+0.5000 SOL", "d", "confirmed", "Received SOL"⟩] :=
  ⟨(claim_C4 (fun _ => "d") ("W")).2.1 ⟨"S0", none, none⟩ ⟨["X", "Y"], [0], [7]⟩
     (by with_unfolding_all decide),
   (claim_C4 (fun _ => "d") ("W")).2.2 ⟨"S1", none, none⟩ ⟨"S2", none, none⟩
     ⟨"S3", none, none⟩
     (fun s => if s = "S2" then none else some ⟨["W"], [0], [500000000]⟩)
     ⟨"S1", "receive", "+0.5000 SOL", "d", "confirmed", "Received SOL"⟩
     ⟨"S3", "receive", "+0.5000 SOL", "d", "confirmed", "Received SOL"⟩
     (by with_unfolding_all decide) (by with_unfolding_all decide)
     (by with_unfolding_all decide)⟩

/-- C3: with three signatures whose detail fetches all succeed, the
fan-out/fan-in assembly produces exactly the classified records in the
original signature order, for every settlement order of the three
concurrent fetches. -/
theorem claim_C3 (fmtDate : Int → String) (wallet : String)
    (s1 s2 s3 : SigRecord) (fetch : String → Option TxDetail)
    (order : List Nat) (c1 c2 c3 : ClassifiedTx)
    (hp : order.Perm [0, 1, 2])
    (h1 : taskResult fmtDate wallet fetch s1 = some c1)
    (h2 : taskResult fmtDate wallet fetch s2 = some c2)
    (h3 : taskResult fmtDate wallet fetch s3 = some c3) :
    fetchTransactionsConcurrent fmtDate wallet [s1, s2, s3] fetch order = [c1, c2, c3] := by
  have hmem : order ∈ ([0, 1, 2] : List Nat).permutations' := List.mem_permutations'.2 hp
  have hperms : ([0, 1, 2] : List Nat).permutations' =
      [[0, 1, 2], [1, 0, 2], [1, 2, 0], [0, 2, 1], [2, 0, 1], [2, 1, 0]] := by decide
  rw [hperms] at hmem
  simp only [List.mem_cons, List.not_mem_nil, or_false] at hmem
  rcases hmem with rfl | rfl | rfl | rfl | rfl | rfl <;>
    simp [fetchTransactionsConcurrent, fanIn, List.replicate, List.set, h1, h2, h3]

/-- C3 witness: with all three fetches succeeding, a settlement order of
`S3` first, then `S1`, then `S2` still yields the output in signature
order `[S1, S2, S3]`. -/
theorem claim_C3_witness :
    fetchTransactionsConcurrent (fun _ => "d") ("W")
      [⟨"S1", none, none⟩, ⟨"S2", none, none⟩, ⟨"S3", none, none⟩]
      (fun s => if s = "S2" then some ⟨["W"], [250000000], [0]⟩
        else some ⟨["W"], [0], [500000000]⟩)
      [2, 0, 1] =
      [⟨"S1", "receive", "+0.5000 SOL", "d", "confirmed", "Received SOL"⟩,
       ⟨"S2", "send", "-0.2500 SOL", "d", "confirmed", "Sent SOL"⟩,
       ⟨"S3", "receive", "+0.5000 SOL", "d", "confirmed", "Received SOL"⟩] :=
  claim_C3 (fun _ => "d") ("W") ⟨"S1", none, none⟩ ⟨"S2", none, none⟩ ⟨"S3", none, none⟩
    (fun s => if s = "S2" then some ⟨["W"], [250000000], [0]⟩
      else some ⟨["W"], [0], [500000000]⟩)
    [2, 0, 1]
    ⟨"S1", "receive", "+0.5000 SOL", "d", "confirmed", "Received SOL"⟩
    ⟨"S2", "send", "-0.2500 SOL", "d", "confirmed", "Sent SOL"⟩
    ⟨"S3", "receive", "+0.5000 SOL", "d", "confirmed", "Received SOL"⟩
    (by decide) (by with_unfolding_all decide) (by with_unfolding_all decide)
    (by with_unfolding_all decide)

end LazorkitKeyless
